import Mathlib

/-!
Shallow embedding of the core state logic of the refine-app repository:
the email-OTP authentication state machine (src/hooks/useAuth.ts together
with the provider result shapes of src/hooks/useSupabaseAuth.ts) and the
chat session / persistence layer (src/hooks/chat/useChat.ts and the
ChatService in src/services/api/chat.service.ts).

Modelling conventions:
- JavaScript `Date` instants are modelled by their millisecond value as a
  `Nat` (`Date.prototype.toJSON` and `new Date(isoString)` round-trip
  exactly at millisecond precision).
- The asynchronous provider calls (`sendOTPToEmail`, `verifyOTPCode`,
  `signOut`, `generateAIResponse`) are modelled by passing their result as
  an explicit parameter to the state-transition function; each transition
  function computes the state after the whole `async` body has run.
- `generateId()` (`Date.now()` plus a random suffix) is modelled by
  threading the fresh identifier as an explicit parameter.
- React `setState` updater chains are sequential in the source (single
  event loop); they are composed as ordinary function composition.
-/

namespace RefineApp

/-! ## Authentication data model (src/types from part_006, src/hooks/useAuth.ts) -/

/-- Authentication steps in the login flow: `'email_input' | 'otp_verification' | 'authenticated'`. -/
inductive AuthStep where
  | email_input
  | otp_verification
  | authenticated
deriving DecidableEq, Repr

/-- User profile information (interface `User`). Timestamps are wire strings in the source. -/
structure User where
  id : String
  email : String
  emailConfirmed : Bool
  createdAt : String
  lastSignInAt : Option String := none
  name : Option String := none
  avatar : Option String := none
deriving DecidableEq, Repr

/-- OTP countdown timer state (`otpTimer` in `AuthState`). `timeRemaining` is an
`Int` because the source computes `prev.otpTimer.timeRemaining - 1` before
clamping, so negativity is meaningful to the claim. -/
structure OTPTimerState where
  timeRemaining : Int
  isActive : Bool
  canResend : Bool
deriving DecidableEq, Repr

/-- Aggregate authentication state (interface `AuthState`). -/
structure AuthState where
  isLoading : Bool
  error : Option String
  isAuthenticated : Bool
  authStep : AuthStep
  user : Option User
  pendingEmail : Option String
  otpTimer : OTPTimerState
deriving DecidableEq, Repr

/-- The initial value passed to `useState<AuthState>` in `useAuth`. -/
def initialAuthState : AuthState :=
  { isLoading := false
    error := none
    isAuthenticated := false
    authStep := .email_input
    user := none
    pendingEmail := none
    otpTimer := { timeRemaining := 0, isActive := false, canResend := true } }

/-- Result of `supabaseAuth.sendOTPToEmail` (and `signOut`):
`{ success: boolean; error?: string }`. -/
inductive SendOTPResult where
  | success
  | failure (error : Option String)
deriving DecidableEq, Repr

/-- Result of `supabaseAuth.verifyOTPCode`:
`{ success: boolean; user?: User; session?: ...; error?: string }`.
A successful result may still carry no user, which `verifyOTP` treats as a
failure (`!result.success || !result.user`). -/
inductive VerifyOTPResult where
  | success (user : Option User)
  | failure (error : Option String)
deriving DecidableEq, Repr

/-- JavaScript `x || defaultMsg` on an optional error string: both `undefined`
and the empty string fall through to the default. The chosen message is then
carried by the thrown `Error` and surfaced by the `catch` block. -/
def errorMessageOr (e : Option String) (defaultMsg : String) : String :=
  match e with
  | some s => if s = "" then defaultMsg else s
  | none => defaultMsg

/-- `startOTPTimer`: resets the countdown to 120 seconds and (re)arms it.
Cancelling the previously running interval has no effect on `AuthState`. -/
def startOTPTimer (st : AuthState) : AuthState :=
  { st with otpTimer := { timeRemaining := 120, isActive := true, canResend := false } }

/-- One firing of the `setInterval` callback installed by `startOTPTimer`. -/
def otpTick (st : AuthState) : AuthState :=
  let newTimeRemaining := st.otpTimer.timeRemaining - 1
  if newTimeRemaining ≤ 0 then
    { st with otpTimer := { timeRemaining := 0, isActive := false, canResend := true } }
  else
    { st with otpTimer := { st.otpTimer with timeRemaining := newTimeRemaining } }

/-- `loginWithEmail(email)` with the provider call's outcome passed explicitly. -/
def loginWithEmail (st : AuthState) (email : String) (result : SendOTPResult) : AuthState :=
  let st := { st with isLoading := true, error := none }
  match result with
  | .success =>
      let st := startOTPTimer st
      { st with
        isLoading := false
        error := none
        authStep := .otp_verification
        pendingEmail := some email }
  | .failure e =>
      { st with
        isLoading := false
        error := some (errorMessageOr e "Failed to send OTP") }

/-- `verifyOTP(otpCode)` with the provider call's outcome passed explicitly.
When no `pendingEmail` is set, the function returns before the provider is
consulted, so the result cannot depend on `result`. -/
def verifyOTP (st : AuthState) (otpCode : String) (result : VerifyOTPResult) : AuthState :=
  match st.pendingEmail with
  | none =>
      { st with error := some "No email found for verification. Please start over." }
  | some _ =>
      let st := { st with isLoading := true, error := none }
      match result with
      | .success (some u) =>
          { isLoading := false
            error := none
            isAuthenticated := true
            authStep := .authenticated
            user := some u
            pendingEmail := none
            otpTimer := { timeRemaining := 0, isActive := false, canResend := true } }
      | .success none =>
          { st with
            isLoading := false
            error := some (errorMessageOr none "Failed to verify OTP") }
      | .failure e =>
          { st with
            isLoading := false
            error := some (errorMessageOr e "Failed to verify OTP") }

/-- `resendOTP()`: re-runs `loginWithEmail` on the pending email. -/
def resendOTP (st : AuthState) (result : SendOTPResult) : AuthState :=
  match st.pendingEmail with
  | none =>
      { st with error := some "No email found for resending OTP. Please start over." }
  | some email => loginWithEmail st email result

/-- `goBackToEmail()`: stops the timer and returns to the email input step. -/
def goBackToEmail (st : AuthState) : AuthState :=
  { st with
    authStep := .email_input
    pendingEmail := none
    error := none
    otpTimer := { timeRemaining := 0, isActive := false, canResend := true } }

/-- `logout()`: a failing `signOut` is only logged, so the state is reset to
its initial value regardless of the provider outcome. -/
def logout (st : AuthState) (signOutResult : SendOTPResult) : AuthState :=
  match st, signOutResult with
  | _, _ =>
    { isLoading := false
      error := none
      isAuthenticated := false
      authStep := .email_input
      user := none
      pendingEmail := none
      otpTimer := { timeRemaining := 0, isActive := false, canResend := true } }

/-- The OTP timer invariant of the specification: the countdown is never
negative, `isActive` holds exactly while time remains, and `canResend` is the
negation of `isActive`. -/
def TimerInv (st : AuthState) : Prop :=
  0 ≤ st.otpTimer.timeRemaining ∧
  st.otpTimer.isActive = decide (0 < st.otpTimer.timeRemaining) ∧
  st.otpTimer.canResend = !st.otpTimer.isActive

/-- C2: the OTP timer invariant `isActive == (timeRemaining > 0)` and
`canResend == !isActive` holds initially and is preserved by every auth
operation and by every timer tick; under the invariant the countdown is
non-negative and `canResend` holds exactly when `timeRemaining` is 0. -/
theorem otpTimer_invariant_preserved :
    TimerInv initialAuthState ∧
    ∀ st, TimerInv st →
      (∀ email r, TimerInv (loginWithEmail st email r)) ∧
      (∀ code r, TimerInv (verifyOTP st code r)) ∧
      (∀ r, TimerInv (resendOTP st r)) ∧
      TimerInv (goBackToEmail st) ∧
      (∀ r, TimerInv (logout st r)) ∧
      TimerInv (otpTick st) ∧
      (st.otpTimer.canResend = true ↔ st.otpTimer.timeRemaining = 0) := by
  constructor
  · exact ⟨le_refl 0, rfl, rfl⟩
  intro st h
  obtain ⟨h0, h1, h2⟩ := h
  have hlogin : ∀ email r, TimerInv (loginWithEmail st email r) := by
    intro email r
    cases r with
    | success =>
        exact ⟨by norm_num [loginWithEmail, startOTPTimer], rfl, rfl⟩
    | failure e =>
        exact ⟨h0, h1, h2⟩
  refine ⟨hlogin, ?_, ?_, ⟨le_refl 0, rfl, rfl⟩, ?_, ?_, ?_⟩
  · intro code r
    rcases hp : st.pendingEmail with _ | em
    · simp only [verifyOTP, hp]
      exact ⟨h0, h1, h2⟩
    · rcases r with (_ | u) | e
      all_goals simp only [verifyOTP, hp]
      · exact ⟨h0, h1, h2⟩
      · exact ⟨le_refl 0, rfl, rfl⟩
      · exact ⟨h0, h1, h2⟩
  · intro r
    rcases hp : st.pendingEmail with _ | em
    · simp only [resendOTP, hp]
      exact ⟨h0, h1, h2⟩
    · simp only [resendOTP, hp]
      exact hlogin em r
  · intro r
    exact ⟨le_refl 0, rfl, rfl⟩
  · simp only [otpTick]
    split
    · exact ⟨le_refl 0, rfl, rfl⟩
    · rename_i hpos
      refine ⟨?_, ?_, ?_⟩
      · show 0 ≤ st.otpTimer.timeRemaining - 1
        omega
      · show st.otpTimer.isActive = decide (0 < st.otpTimer.timeRemaining - 1)
        have ht : (0 : Int) < st.otpTimer.timeRemaining := by omega
        have ht' : (0 : Int) < st.otpTimer.timeRemaining - 1 := by omega
        rw [h1]
        simp [ht, ht']
      · show st.otpTimer.canResend = !st.otpTimer.isActive
        exact h2
  · rw [h2, h1]
    simp only [Bool.not_eq_true', decide_eq_false_iff_not, not_lt]
    omega

/-- C2 witness: the invariant instantiated on a concrete run (a tick right
after a successful login). -/
theorem otpTimer_invariant_preserved_witness :
    TimerInv (otpTick (loginWithEmail initialAuthState "user@example.com" .success)) :=
  (otpTimer_invariant_preserved.2
      (loginWithEmail initialAuthState "user@example.com" .success)
      (by unfold TimerInv; decide)).2.2.2.2.2.1

/-- C3: a failing provider call makes `loginWithEmail` and `verifyOTP` set a
non-null error, clear `isLoading`, and leave `authStep`, `pendingEmail` and
`user` unchanged; `logout` resets the state regardless of the provider
outcome. -/
theorem auth_failure_sets_error_preserves_position :
    (∀ st email e,
      (loginWithEmail st email (.failure e)).error.isSome = true ∧
      (loginWithEmail st email (.failure e)).isLoading = false ∧
      (loginWithEmail st email (.failure e)).authStep = st.authStep ∧
      (loginWithEmail st email (.failure e)).pendingEmail = st.pendingEmail ∧
      (loginWithEmail st email (.failure e)).user = st.user) ∧
    (∀ st code e em, st.pendingEmail = some em →
      (verifyOTP st code (.failure e)).error.isSome = true ∧
      (verifyOTP st code (.failure e)).isLoading = false ∧
      (verifyOTP st code (.failure e)).authStep = st.authStep ∧
      (verifyOTP st code (.failure e)).pendingEmail = st.pendingEmail ∧
      (verifyOTP st code (.failure e)).user = st.user) ∧
    (∀ st r, logout st r = initialAuthState) := by
  refine ⟨?_, ?_, ?_⟩
  · intro st email e
    exact ⟨rfl, rfl, rfl, rfl, rfl⟩
  · intro st code e em hp
    simp [verifyOTP, hp]
  · intro st r
    rfl

/-- Concrete mid-verification state used by the C3 witness. -/
def otpStepState : AuthState :=
  { initialAuthState with
    authStep := .otp_verification
    pendingEmail := some "user@example.com"
    otpTimer := { timeRemaining := 120, isActive := true, canResend := false } }

/-- C3 witness: the failure behaviour at a concrete mid-verification state. -/
theorem auth_failure_sets_error_preserves_position_witness :
    (verifyOTP otpStepState "123456" (.failure (some "network down"))).error.isSome = true ∧
    (verifyOTP otpStepState "123456" (.failure (some "network down"))).isLoading = false ∧
    (verifyOTP otpStepState "123456" (.failure (some "network down"))).authStep =
      otpStepState.authStep ∧
    (verifyOTP otpStepState "123456" (.failure (some "network down"))).pendingEmail =
      otpStepState.pendingEmail ∧
    (verifyOTP otpStepState "123456" (.failure (some "network down"))).user =
      otpStepState.user :=
  auth_failure_sets_error_preserves_position.2.1 otpStepState "123456"
    (some "network down") "user@example.com" rfl

/-- C7: with no `pendingEmail` set, `verifyOTP` only records the
missing-pending-email error; the result does not depend on the provider
outcome (the provider is never consulted) and the rest of the state is
untouched. -/
theorem verifyOTP_missing_pendingEmail :
    ∀ st code r, st.pendingEmail = none →
      verifyOTP st code r =
        { st with error := some "No email found for verification. Please start over." } := by
  intro st code r hp
  simp only [verifyOTP, hp]

/-- C7 witness: the missing-pending-email failure at the initial state. -/
theorem verifyOTP_missing_pendingEmail_witness :
    verifyOTP initialAuthState "123456" (.failure none) =
      { initialAuthState with
        error := some "No email found for verification. Please start over." } :=
  verifyOTP_missing_pendingEmail initialAuthState "123456" (.failure none) rfl

/-! ## Chat data model (src/types/chat.ts) -/

/-- `MessageSender = 'user' | 'assistant'`. -/
inductive MessageSender where
  | user
  | assistant
deriving DecidableEq, Repr

/-- A single message (interface `Message`). `isLoading?` is optional in the
source but always written by `createMessage`; an absent flag behaves as
`false`, which is how it is modelled. -/
structure Message where
  id : String
  content : String
  sender : MessageSender
  timestamp : Nat
  isLoading : Bool
deriving DecidableEq, Repr

/-- A chat conversation (interface `Chat`). -/
structure Chat where
  id : String
  title : String
  messages : List Message
  createdAt : Nat
  updatedAt : Nat
deriving DecidableEq, Repr

/-- Overall chat UI state (interface `ChatState`). -/
structure ChatState where
  currentChat : Option Chat
  chats : List Chat
  isLoading : Bool
  isSidebarOpen : Bool
  error : Option String
deriving DecidableEq, Repr

/-- `Partial<Message>`: each field optionally present. -/
structure MessagePatch where
  id : Option String := none
  content : Option String := none
  sender : Option MessageSender := none
  timestamp : Option Nat := none
  isLoading : Option Bool := none
deriving DecidableEq, Repr

/-- The object spread `{ ...msg, ...updates }`: fields present in the patch
override the message's fields. -/
def applyPatch (msg : Message) (updates : MessagePatch) : Message :=
  { id := updates.id.getD msg.id
    content := updates.content.getD msg.content
    sender := updates.sender.getD msg.sender
    timestamp := updates.timestamp.getD msg.timestamp
    isLoading := updates.isLoading.getD msg.isLoading }

/-- Result of `chatService.generateAIResponse` (interface `AIResponse`). -/
structure AIResponse where
  content : String
  success : Bool
  error : Option String := none
deriving DecidableEq, Repr

/-- Configuration of the `ChatService` (interface `ChatOptions`, with the
constructor's `??`-defaults already applied). -/
structure ChatOptions where
  maxChats : Nat
  autoSave : Bool
  responseDelay : Nat
deriving DecidableEq, Repr

/-- `CHAT_DEFAULTS.MAX_CHATS` from the constants module. -/
def CHAT_DEFAULTS_MAX_CHATS : Nat := 50

/-- The options of the default `chatService` instance (`new ChatService()`). -/
def defaultChatOptions : ChatOptions :=
  { maxChats := CHAT_DEFAULTS_MAX_CHATS, autoSave := true, responseDelay := 1000 }

/-! ## String helpers modelling the JavaScript built-ins used by ChatService -/

/-- JavaScript `String.prototype.trim` on the character list: strip leading
and trailing whitespace. -/
def trimChars (s : List Char) : List Char :=
  ((s.dropWhile Char.isWhitespace).reverse.dropWhile Char.isWhitespace).reverse

/-- JavaScript `content.trim()`. -/
def jsTrim (s : String) : String := ⟨trimChars s.data⟩

/-- JavaScript `title.replace(/\s+/g, ' ')`: every maximal whitespace run
becomes a single space. `prevWs` records whether the previous character was
part of a whitespace run already emitted. -/
def collapseWs (prevWs : Bool) : List Char → List Char
  | [] => []
  | c :: cs =>
      if c.isWhitespace then
        if prevWs then collapseWs true cs else ' ' :: collapseWs true cs
      else c :: collapseWs false cs

/-! ## ChatService (src/services/api/chat.service.ts) -/

namespace ChatService

/-- `generateChatTitle`: first 50 characters (with an ellipsis when longer),
whitespace collapsed, then trimmed. -/
def generateChatTitle (firstMessage : String) : String :=
  let title : String :=
    if firstMessage.data.length > 50 then ⟨firstMessage.data.take 50⟩ ++ "..." else firstMessage
  jsTrim ⟨collapseWs false title.data⟩

/-- `createMessage(content, sender)`; the generated id and `new Date()` are
threaded as parameters. -/
def createMessage (msgId : String) (now : Nat) (content : String) (sender : MessageSender) :
    Message :=
  { id := msgId, content := content, sender := sender, timestamp := now, isLoading := false }

/-- `createChat(initialMessage)`. -/
def createChat (chatId : String) (now : Nat) (initialMessage : Message) : Chat :=
  { id := chatId
    title := generateChatTitle initialMessage.content
    messages := [initialMessage]
    createdAt := now
    updatedAt := now }

/-- `addMessageToChat(chat, message)`. -/
def addMessageToChat (now : Nat) (chat : Chat) (message : Message) : Chat :=
  { chat with messages := chat.messages ++ [message], updatedAt := now }

/-- `updateMessageInChat(chat, messageId, updates)`: patches every message
whose id matches and refreshes `updatedAt` unconditionally. -/
def updateMessageInChat (now : Nat) (chat : Chat) (messageId : String)
    (updates : MessagePatch) : Chat :=
  { chat with
    messages := chat.messages.map fun msg =>
      if msg.id = messageId then applyPatch msg updates else msg
    updatedAt := now }

/-- `deleteChat(chats, chatId)`. -/
def deleteChat (chats : List Chat) (chatId : String) : List Chat :=
  chats.filter fun chat => chat.id ≠ chatId

/-- Stable insertion of a chat into a list sorted by `updatedAt` descending.
JavaScript's `Array.prototype.sort` is stable, so the stable insertion sort
below computes the same list as `chats.sort((a, b) => b.updatedAt - a.updatedAt)`. -/
def insertByUpdatedDesc (c : Chat) : List Chat → List Chat
  | [] => [c]
  | x :: xs => if x.updatedAt ≤ c.updatedAt then c :: x :: xs else x :: insertByUpdatedDesc c xs

/-- `chats.sort((a, b) => b.updatedAt.getTime() - a.updatedAt.getTime())`. -/
def sortByUpdatedDesc : List Chat → List Chat
  | [] => []
  | c :: rest => insertByUpdatedDesc c (sortByUpdatedDesc rest)

/-- `saveChats(chats)`: when auto-save is on, replace the stored collection
by the recency-sorted list truncated to `maxChats`; otherwise leave the
store untouched. The stored value of the chats key is modelled as
`Option (List Chat)`. -/
def saveChats (opts : ChatOptions) (chats : List Chat) (stored : Option (List Chat)) :
    Option (List Chat) :=
  if opts.autoSave = false then stored
  else some ((sortByUpdatedDesc chats).take opts.maxChats)

end ChatService

/-! ## The useChat hook (src/hooks/chat/useChat.ts) -/

namespace ChatHook

/-- The chat hook's observable state: the React `ChatState` plus the
`isGeneratingRef` single-flight guard. -/
structure HookState where
  chat : ChatState
  isGenerating : Bool
deriving DecidableEq, Repr

/-- `addMessage(content, sender, chatId?)`. The generated message id and the
id a freshly created chat would get are threaded as `msgId` / `newChatId`;
`now` is `new Date()`. Mirrors the three branches of the `setChatState`
updater; note that `error` is cleared even when a requested `chatId` is not
found, because the updater always returns `error: null`. -/
def addMessage (st : ChatState) (content : String) (sender : MessageSender)
    (chatId : Option String) (msgId newChatId : String) (now : Nat) : ChatState :=
  if jsTrim content = "" then st
  else
    let message := ChatService.createMessage msgId now content sender
    match chatId with
    | some cid =>
        match st.chats.findIdx? (fun c => c.id = cid) with
        | some chatIndex =>
            match st.chats[chatIndex]? with
            | some old =>
                let updatedChat := ChatService.addMessageToChat now old message
                { st with
                  chats := st.chats.set chatIndex updatedChat
                  currentChat := some updatedChat
                  error := none }
            | none => { st with error := none }
        | none => { st with error := none }
    | none =>
        match st.currentChat with
        | some current =>
            match st.chats.findIdx? (fun c => c.id = current.id) with
            | some chatIndex =>
                let updatedChat := ChatService.addMessageToChat now current message
                { st with
                  chats := st.chats.set chatIndex updatedChat
                  currentChat := some updatedChat
                  error := none }
            | none => { st with error := none }
        | none =>
            let newChat := ChatService.createChat newChatId now message
            { st with
              chats := newChat :: st.chats
              currentChat := some newChat
              error := none }

/-- `updateMessage(messageId, updates)`: patches the message inside the
current chat and writes the patched chat back into the collection. -/
def updateMessage (st : ChatState) (messageId : String) (updates : MessagePatch)
    (now : Nat) : ChatState :=
  match st.currentChat with
  | none => st
  | some current =>
      let updatedChat := ChatService.updateMessageInChat now current messageId updates
      match st.chats.findIdx? (fun c => c.id = updatedChat.id) with
      | some chatIndex =>
          { st with
            chats := st.chats.set chatIndex updatedChat
            currentChat := some updatedChat }
      | none => st

/-- `sendMessage(content)`, composed over the whole async flow. Parameters:
`userMsgId`/`userNewChatId` are the ids generated while appending the user
message, `placeholderMsgId`/`placeholderNewChatId` the ids generated inside
the second `addMessage` call, and `loadingMsgId` the id of the separate
`loadingMessage` object whose id is used for the final `updateMessage`
(these are distinct `generateId()` draws in the source). `t1 t2 t3` are the
successive `new Date()` readings and `resp` the `generateAIResponse`
outcome. The auto-clear timeout attached by `setError` is outside the
state model. -/
def sendMessage (hs : HookState) (content : String)
    (userMsgId userNewChatId loadingMsgId placeholderMsgId placeholderNewChatId : String)
    (t1 t2 t3 : Nat) (resp : AIResponse) : HookState :=
  if jsTrim content = "" ∨ hs.isGenerating then hs
  else
    let st := { hs.chat with isLoading := true, error := none }
    let st := addMessage st content .user none userMsgId userNewChatId t1
    let st := addMessage st "" .assistant none placeholderMsgId placeholderNewChatId t2
    let st :=
      if resp.success then
        updateMessage st loadingMsgId
          { content := some resp.content, isLoading := some false } t3
      else
        let st := updateMessage st loadingMsgId
          { content := some resp.content, isLoading := some false } t3
        { st with error := some (errorMessageOr resp.error "Failed to generate response") }
    { chat := { st with isLoading := false }, isGenerating := false }

end ChatHook

/-- The chat state before any chat exists. -/
def emptyChatState : ChatState :=
  { currentChat := none, chats := [], isLoading := false, isSidebarOpen := false, error := none }

/-- C10: `addMessage` with whitespace-only content returns before touching
any state, for every sender and every optional target chat id, so an empty
assistant placeholder can never be inserted through it. -/
theorem addMessage_empty_content_noop :
    ∀ st content sender chatId msgId newChatId now,
      jsTrim content = "" →
      ChatHook.addMessage st content sender chatId msgId newChatId now = st := by
  intro st content sender chatId msgId newChatId now h
  unfold ChatHook.addMessage
  rw [if_pos h]

/-- C10 witness: whitespace-only assistant message on the empty state. -/
theorem addMessage_empty_content_noop_witness :
    ChatHook.addMessage emptyChatState "   " .assistant none "m1" "c1" 5 = emptyChatState :=
  addMessage_empty_content_noop emptyChatState "   " .assistant none "m1" "c1" 5 (by decide)

/-- C8: `sendMessage` is a no-op when the content trims to empty or when a
previous send is still in flight (`isGeneratingRef` guard): the whole hook
state, collection included, is returned unchanged. -/
theorem sendMessage_noop_guard :
    ∀ hs content a b c d e t1 t2 t3 resp,
      (jsTrim content = "" ∨ hs.isGenerating = true) →
      ChatHook.sendMessage hs content a b c d e t1 t2 t3 resp = hs := by
  intro hs content a b c d e t1 t2 t3 resp h
  unfold ChatHook.sendMessage
  rw [if_pos h]

/-- C8 witness: a whitespace-only send and a send issued while a previous
one is still generating, both on concrete states. -/
theorem sendMessage_noop_guard_witness :
    ChatHook.sendMessage ⟨emptyChatState, false⟩ "   " "u" "cu" "l" "p" "cp" 1 2 3
        { content := "r", success := true, error := none } = ⟨emptyChatState, false⟩ ∧
    ChatHook.sendMessage ⟨emptyChatState, true⟩ "Hi" "u" "cu" "l" "p" "cp" 1 2 3
        { content := "r", success := true, error := none } = ⟨emptyChatState, true⟩ :=
  ⟨sendMessage_noop_guard ⟨emptyChatState, false⟩ "   " "u" "cu" "l" "p" "cp" 1 2 3
      { content := "r", success := true, error := none } (Or.inl (by decide)),
   sendMessage_noop_guard ⟨emptyChatState, true⟩ "Hi" "u" "cu" "l" "p" "cp" 1 2 3
      { content := "r", success := true, error := none } (Or.inr rfl)⟩

/-- Patching a message id that occurs nowhere in the list leaves the
message list unchanged. -/
theorem map_patch_eq_self_of_not_mem {ms : List Message} {mid : String} {p : MessagePatch}
    (h : ∀ m ∈ ms, m.id ≠ mid) :
    (ms.map fun msg => if msg.id = mid then applyPatch msg p else msg) = ms := by
  induction ms with
  | nil => rfl
  | cons m rest ih =>
      simp only [List.map_cons]
      rw [if_neg (h m (by simp)), ih fun x hx => h x (by simp [hx])]

/-- C9 (amended): `updateMessage(messageId, patch)` takes no chat id and
targets the current chat: it merges the patch into the matching message and
refreshes the chat's `updatedAt`; it is a no-op when there is no current
chat or when the current chat's id is absent from the collection; when the
message id is not found, the messages are unchanged but `updatedAt` is
still refreshed. -/
theorem updateMessage_amended :
    ∀ st mid p now,
      (st.currentChat = none → ChatHook.updateMessage st mid p now = st) ∧
      (∀ c, st.currentChat = some c →
        st.chats.findIdx? (fun x => x.id = c.id) = none →
        ChatHook.updateMessage st mid p now = st) ∧
      (∀ c i, st.currentChat = some c →
        st.chats.findIdx? (fun x => x.id = c.id) = some i →
        (ChatHook.updateMessage st mid p now).currentChat =
          some (ChatService.updateMessageInChat now c mid p) ∧
        (ChatHook.updateMessage st mid p now).chats =
          st.chats.set i (ChatService.updateMessageInChat now c mid p)) ∧
      (∀ c, st.currentChat = some c → (∀ m ∈ c.messages, m.id ≠ mid) →
        (ChatService.updateMessageInChat now c mid p).messages = c.messages ∧
        (ChatService.updateMessageInChat now c mid p).updatedAt = now) := by
  intro st mid p now
  refine ⟨?_, ?_, ?_, ?_⟩
  · intro hc
    simp [ChatHook.updateMessage, hc]
  · intro c hc hidx
    simp [ChatHook.updateMessage, ChatService.updateMessageInChat, hc, hidx]
  · intro c i hc hidx
    simp [ChatHook.updateMessage, ChatService.updateMessageInChat, hc, hidx]
  · intro c hc hmem
    exact ⟨map_patch_eq_self_of_not_mem hmem, rfl⟩

/-- The single message of the C9 counterexample chat. -/
def c9Message : Message :=
  { id := "m", content := "x", sender := .user, timestamp := 5, isLoading := false }

/-- The C9 counterexample chat, last updated at time 5. -/
def c9Chat : Chat :=
  { id := "c", title := "t", messages := [c9Message], createdAt := 5, updatedAt := 5 }

/-- The C9 counterexample state: `c9Chat` is current and in the collection. -/
def c9State : ChatState :=
  { currentChat := some c9Chat, chats := [c9Chat], isLoading := false
    isSidebarOpen := false, error := none }

/-- C9 counterexample: updating a message id that is not present is not a
no-op — the current chat's `updatedAt` is refreshed (5 becomes 7). -/
theorem updateMessage_missing_id_not_noop :
    ChatHook.updateMessage c9State "missing" {} 7 ≠ c9State := by decide

/-- C9 witness: the amended description applied at the concrete state in
which the patched message id is absent. -/
theorem updateMessage_amended_witness :
    (ChatHook.updateMessage c9State "missing" {} 7).currentChat =
      some (ChatService.updateMessageInChat 7 c9Chat "missing" {}) ∧
    (ChatHook.updateMessage c9State "missing" {} 7).chats =
      c9State.chats.set 0 (ChatService.updateMessageInChat 7 c9Chat "missing" {}) :=
  (updateMessage_amended c9State "missing" {} 7).2.2.1 c9Chat 0 rfl (by decide)

/-- The state reached by `sendMessage("Hello")` from the empty session, with
the mock generator's deterministic reply for inputs containing "hello". -/
def c1Send : ChatHook.HookState :=
  ChatHook.sendMessage ⟨emptyChatState, false⟩ "Hello" "u1" "cu1" "l1" "p1" "cp1" 1 2 3
    { content := "Hello! How can I help you today?", success := true, error := none }

/-- C1 (code behaviour at the claimed scenario): after `sendMessage("Hello")`
on an empty session the collection holds exactly one chat titled "Hello",
but that chat contains exactly one message, sent by the user — the assistant
placeholder required by the claim is never appended, because
`addMessage('', 'assistant')` returns on empty content and the final
`updateMessage` targets an id that was never inserted. -/
theorem sendMessage_hello_single_user_message :
    c1Send.chat.chats.map Chat.title = ["Hello"] ∧
    c1Send.chat.chats.map (fun c => c.messages.length) = [1] ∧
    c1Send.chat.chats.map (fun c => c.messages.map Message.sender) = [[.user]] ∧
    c1Send.isGenerating = false := by decide

/-- Membership in a stable descending insertion. -/
theorem mem_insertByUpdatedDesc {x c : Chat} {l : List Chat} :
    x ∈ ChatService.insertByUpdatedDesc c l ↔ x = c ∨ x ∈ l := by
  induction l with
  | nil => simp [ChatService.insertByUpdatedDesc]
  | cons y ys ih =>
      simp only [ChatService.insertByUpdatedDesc]
      split
      · simp [List.mem_cons]
      · simp only [List.mem_cons, ih]
        tauto

/-- Inserting into a descending-sorted list keeps it descending-sorted. -/
theorem pairwise_insertByUpdatedDesc {c : Chat} {l : List Chat}
    (h : l.Pairwise fun a b => b.updatedAt ≤ a.updatedAt) :
    (ChatService.insertByUpdatedDesc c l).Pairwise fun a b => b.updatedAt ≤ a.updatedAt := by
  induction l with
  | nil => simp [ChatService.insertByUpdatedDesc]
  | cons y ys ih =>
      obtain ⟨hy, hys⟩ := List.pairwise_cons.mp h
      simp only [ChatService.insertByUpdatedDesc]
      split
      · rename_i hle
        refine List.pairwise_cons.mpr ⟨?_, h⟩
        intro b hb
        rcases List.mem_cons.mp hb with rfl | hb
        · exact hle
        · exact le_trans (hy b hb) hle
      · rename_i hgt
        push_neg at hgt
        refine List.pairwise_cons.mpr ⟨?_, ih hys⟩
        intro b hb
        rcases mem_insertByUpdatedDesc.mp hb with rfl | hb
        · exact le_of_lt hgt
        · exact hy b hb

/-- The recency sort used by `saveChats` is sorted by `updatedAt` descending. -/
theorem pairwise_sortByUpdatedDesc (l : List Chat) :
    (ChatService.sortByUpdatedDesc l).Pairwise fun a b => b.updatedAt ≤ a.updatedAt := by
  induction l with
  | nil => simp [ChatService.sortByUpdatedDesc]
  | cons c rest ih => exact pairwise_insertByUpdatedDesc ih

/-- Chat "A" of the C4 scenario, last updated at t = 1. -/
def chatA : Chat :=
  { id := "A", title := "A"
    messages := [{ id := "ma", content := "A", sender := .user, timestamp := 1, isLoading := false }]
    createdAt := 1, updatedAt := 1 }

/-- Chat "B" of the C4 scenario, last updated at t = 2. -/
def chatB : Chat :=
  { id := "B", title := "B"
    messages := [{ id := "mb", content := "B", sender := .user, timestamp := 2, isLoading := false }]
    createdAt := 2, updatedAt := 2 }

/-- A `ChatService` configured with `maxChats := 2` for the C4 scenario. -/
def capTwoOptions : ChatOptions := { maxChats := 2, autoSave := true, responseDelay := 1000 }

/-- The C4 scenario collection: the state holding chats B and A with no
current chat, after `sendMessage` at t = 3 creates chat "C". -/
def scenarioAfterSend : List Chat :=
  (ChatHook.sendMessage
    ⟨{ currentChat := none, chats := [chatB, chatA], isLoading := false
       isSidebarOpen := false, error := none }, false⟩
    "C" "mC" "C" "l1" "p1" "cp1" 3 3 3
    { content := "r", success := true, error := none }).chat.chats

/-- C4: the default cap is 50; every save with auto-save on stores the
collection sorted by `updatedAt` descending and truncated to the cap, so the
stored list never exceeds the cap and every evicted chat is no more recently
updated than every stored chat; in the cap-2 scenario with A (t = 1),
B (t = 2) and a send creating C (t = 3), the stored collection is {C, B}
with A evicted. -/
theorem saveChats_cap_and_eviction :
    defaultChatOptions.maxChats = 50 ∧
    (∀ opts chats stored saved,
      opts.autoSave = true →
      ChatService.saveChats opts chats stored = some saved →
      saved.length ≤ opts.maxChats ∧
      saved = (ChatService.sortByUpdatedDesc chats).take opts.maxChats ∧
      ∀ a ∈ saved, ∀ b ∈ (ChatService.sortByUpdatedDesc chats).drop opts.maxChats,
        b.updatedAt ≤ a.updatedAt) ∧
    (ChatService.saveChats capTwoOptions scenarioAfterSend (some [chatB, chatA])).map
        (fun l => l.map Chat.id) = some ["C", "B"] := by
  refine ⟨rfl, ?_, by decide⟩
  intro opts chats stored saved hauto hsave
  unfold ChatService.saveChats at hsave
  rw [hauto] at hsave
  simp only [Bool.true_eq_false, if_false] at hsave
  obtain rfl : (ChatService.sortByUpdatedDesc chats).take opts.maxChats = saved :=
    Option.some.inj hsave
  refine ⟨List.length_take_le _ _, rfl, ?_⟩
  intro a ha b hb
  have hsorted := pairwise_sortByUpdatedDesc chats
  rw [← List.take_append_drop opts.maxChats (ChatService.sortByUpdatedDesc chats)] at hsorted
  exact (List.pairwise_append.mp hsorted).2.2 a ha b hb

/-- C4 witness: the universally quantified cap bound applied to the concrete
cap-2 scenario save. -/
theorem saveChats_cap_and_eviction_witness :
    ((ChatService.sortByUpdatedDesc scenarioAfterSend).take capTwoOptions.maxChats).length ≤
      capTwoOptions.maxChats :=
  (saveChats_cap_and_eviction.2.1 capTwoOptions scenarioAfterSend (some [chatB, chatA])
    ((ChatService.sortByUpdatedDesc scenarioAfterSend).take capTwoOptions.maxChats)
    rfl rfl).1

/-! ## JSON wire model for export/import (src/services/api/chat.service.ts)

`JSON.stringify` / `JSON.parse` are platform built-ins; the serialized text
is modelled by its JSON document tree, and text that `JSON.parse` rejects is
modelled by `none` at the import entry point. `Date.prototype.toJSON`
followed by `new Date(isoString)` round-trips exactly at millisecond
precision, so an instant's wire form is modelled by its millisecond value. -/

/-- A JSON document. -/
inductive Json where
  | null
  | bool (b : Bool)
  | num (n : Nat)
  | str (s : String)
  | arr (elements : List Json)
  | obj (fields : List (String × Json))

/-- JavaScript property access on a parsed JSON value: an object field when
present (later duplicate keys shadow earlier ones, as in `JSON.parse`),
otherwise `undefined`, modelled as `none`. -/
def jsonField (j : Json) (key : String) : Option Json :=
  match j with
  | .obj fields => fields.reverse.lookup key
  | _ => none

/-- A string field, with the `undefined`-like default of the decoded shape. -/
def getStr (j : Json) (key : String) : String :=
  match jsonField j key with
  | some (.str s) => s
  | _ => ""

/-- A millisecond-instant field (`new Date(x)`); an absent or non-instant
value yields an invalid date, modelled as 0. -/
def getTime (j : Json) (key : String) : Nat :=
  match jsonField j key with
  | some (.num n) => n
  | _ => 0

/-- A boolean field, defaulting to the falsy `undefined`. -/
def getBool (j : Json) (key : String) : Bool :=
  match jsonField j key with
  | some (.bool b) => b
  | _ => false

/-- A sender string; anything other than "assistant" stays a user message. -/
def getSender (j : Json) (key : String) : MessageSender :=
  match jsonField j key with
  | some (.str "assistant") => MessageSender.assistant
  | _ => MessageSender.user

/-- Serialization of a message by `JSON.stringify`. -/
def encodeMessage (m : Message) : Json :=
  .obj [("id", .str m.id), ("content", .str m.content),
        ("sender", match m.sender with
                   | .user => .str "user"
                   | .assistant => .str "assistant"),
        ("timestamp", .num m.timestamp), ("isLoading", .bool m.isLoading)]

/-- Serialization of a chat by `JSON.stringify`. -/
def encodeChat (c : Chat) : Json :=
  .obj [("id", .str c.id), ("title", .str c.title),
        ("messages", .arr (c.messages.map encodeMessage)),
        ("createdAt", .num c.createdAt), ("updatedAt", .num c.updatedAt)]

/-- `exportChats(chats)`: the JSON document of the serialized collection. -/
def exportChats (chats : List Chat) : Json :=
  .arr (chats.map encodeChat)

/-- The message rehydration `{ ...message, timestamp: new Date(...) }`.
Reading a property of `null` throws, which aborts the import; any other
shape is spread through untouched. -/
def decodeMessage (j : Json) : Option Message :=
  match j with
  | .null => none
  | _ => some
      { id := getStr j "id", content := getStr j "content", sender := getSender j "sender"
        timestamp := getTime j "timestamp", isLoading := getBool j "isLoading" }

/-- Message-list rehydration: `chat.messages.map(...)`, where a throw on any
element aborts the whole import. -/
def decodeMessages : List Json → Option (List Message)
  | [] => some []
  | j :: js =>
      match decodeMessage j, decodeMessages js with
      | some m, some ms => some (m :: ms)
      | _, _ => none

/-- The chat rehydration `{ ...chat, createdAt: ..., updatedAt: ...,
messages: chat.messages.map(...) }`: it throws — aborting the import —
exactly when the element has no array-valued `messages` property. -/
def decodeChat (j : Json) : Option Chat :=
  match jsonField j "messages" with
  | some (.arr msgs) =>
      match decodeMessages msgs with
      | some messages => some
          { id := getStr j "id", title := getStr j "title", messages := messages
            createdAt := getTime j "createdAt", updatedAt := getTime j "updatedAt" }
      | none => none
  | _ => none

/-- Chat-list rehydration: `imported.map(...)`; `.map` throws when the
parsed document is not an array. -/
def decodeChats : List Json → Option (List Chat)
  | [] => some []
  | j :: js =>
      match decodeChat j, decodeChats js with
      | some c, some cs => some (c :: cs)
      | _, _ => none

/-- `ChatService.importChats(jsonData)`: `none` models the thrown
`Error('Invalid chat data format')`, raised when `JSON.parse` rejects the
text (input `none`) or the rehydration throws. -/
def importChats (input : Option Json) : Option (List Chat) :=
  match input with
  | some (.arr elements) => decodeChats elements
  | _ => none

namespace ChatHook

/-- The hook's `importChats(jsonData)`: on success the imported chats are
prepended and the error cleared; on failure only the user-facing error is
set. -/
def importChatsHook (st : ChatState) (input : Option Json) : ChatState :=
  match RefineApp.importChats input with
  | some importedChats => { st with chats := importedChats ++ st.chats, error := none }
  | none => { st with error := some "Failed to import chats. Please check the file format." }

end ChatHook

/-- Rehydrating a serialized message recovers it exactly. -/
theorem decodeMessage_encodeMessage (m : Message) :
    decodeMessage (encodeMessage m) = some m := by
  cases m with
  | mk id content sender timestamp isLoading => cases sender <;> rfl

/-- Rehydrating a serialized message list recovers it exactly. -/
theorem decodeMessages_map_encode (ms : List Message) :
    decodeMessages (ms.map encodeMessage) = some ms := by
  induction ms with
  | nil => rfl
  | cons m rest ih =>
      simp only [List.map_cons, decodeMessages, decodeMessage_encodeMessage, ih]

/-- Rehydrating a serialized chat recovers it exactly, timestamps included. -/
theorem decodeChat_encodeChat (c : Chat) : decodeChat (encodeChat c) = some c := by
  cases c with
  | mk id title messages createdAt updatedAt =>
      show (match decodeMessages (messages.map encodeMessage) with
            | some ms => some
                { id := id, title := title, messages := ms
                  createdAt := createdAt, updatedAt := updatedAt }
            | none => (none : Option Chat)) = some ⟨id, title, messages, createdAt, updatedAt⟩
      rw [decodeMessages_map_encode]

/-- C5: `exportChats` followed by `importChats` reproduces the collection
exactly — in particular the same chat count, the same message count per
chat, the same ids and content strings, and timestamps equal at the
millisecond precision the serialization supports. -/
theorem importChats_exportChats_roundTrip :
    ∀ chats, importChats (some (exportChats chats)) = some chats := by
  intro chats
  show decodeChats (chats.map encodeChat) = some chats
  induction chats with
  | nil => rfl
  | cons c rest ih =>
      simp only [List.map_cons, decodeChats, decodeChat_encodeChat, ih]

/-- C6: whenever the import pipeline rejects the input (unparseable text or
a rehydration throw), the hook only records the user-facing format error;
the collection and the current-chat pointer are untouched. -/
theorem importChats_failure_atomic :
    ∀ st input, importChats input = none →
      (ChatHook.importChatsHook st input).chats = st.chats ∧
      (ChatHook.importChatsHook st input).currentChat = st.currentChat ∧
      (ChatHook.importChatsHook st input).error =
        some "Failed to import chats. Please check the file format." := by
  intro st input h
  simp [ChatHook.importChatsHook, h]

/-- A populated chat state used by the C6 witness. -/
def c6State : ChatState :=
  { currentChat := some chatB, chats := [chatB, chatA], isLoading := false
    isSidebarOpen := false, error := none }

/-- C6 witness: importing a non-array document into a populated state. -/
theorem importChats_failure_atomic_witness :
    (ChatHook.importChatsHook c6State (some (Json.num 3))).chats = c6State.chats ∧
    (ChatHook.importChatsHook c6State (some (Json.num 3))).currentChat = c6State.currentChat ∧
    (ChatHook.importChatsHook c6State (some (Json.num 3))).error =
      some "Failed to import chats. Please check the file format." :=
  importChats_failure_atomic c6State (some (Json.num 3)) rfl

end RefineApp
